import Mathlib

/-!
Shallow embedding of the request-abstraction core of `teloxide-core`
(files `src/requests/request.rs` and `src/payloads/create_chat_invite_link.rs`),
together with theorems settling the specification claims about it.

Types declared outside the two source files (`ChatId`, `ChatInviteLink`,
the constructor/setters generated by the `impl_payload!` macro, and the
concrete JSON-request implementation of the `Request` trait) are modelled
from the specification; each such definition carries a doc comment saying so.
-/

namespace Teloxide

/-- Modelled from the spec (§6 wire encoding): the structured record a payload
serializes to. Only the constructors the payloads at hand need. -/
inductive Json where
  | num : Int → Json
  | str : String → Json
  | obj : List (String × Json) → Json

/-- Modelled from the spec: `crate::types::ChatId` is outside `src/`; per the
source doc comment it is a "unique identifier for the target chat or username
of the target channel (in the format `@channelusername`)". -/
inductive ChatId where
  | Id : Int → ChatId
  | ChannelUsername : String → ChatId
deriving DecidableEq, Repr

/-- Modelled from the spec: an identifier chat id serializes as a number, a
channel username as a string (the enum is untagged on the wire). -/
def ChatId.toJson : ChatId → Json
  | .Id n => .num n
  | .ChannelUsername s => .str s

/-- Modelled from the spec: `crate::types::ChatInviteLink` is outside `src/`;
the source doc comment only says the method "returns the new invite link as
`ChatInviteLink` object", so we model it as a record holding that link. -/
structure ChatInviteLink where
  invite_link : String
deriving DecidableEq, Repr

/-- The payload of `src/payloads/create_chat_invite_link.rs`: required field
`chat_id : ChatId`, optional fields `expire_date : i64` and
`member_limit : u32` (each optional field a present/absent wrapper, spec §9).
`member_limit` is a `u32`; we embed it as a `Nat` and carry the `< 2^32`
bound as a hypothesis where it matters. -/
structure CreateChatInviteLink where
  chat_id : ChatId
  expire_date : Option Int
  member_limit : Option Nat
deriving DecidableEq, Repr

/-- Modelled from the spec (§4.1): the setter contract is "accept anything
convertible into the field's semantic type"; this is `Into<ChatId>` in the
source. -/
class IntoChatId (α : Type) where
  into : α → ChatId

instance : IntoChatId ChatId := ⟨id⟩

instance : IntoChatId Int := ⟨ChatId.Id⟩

instance : IntoChatId String := ⟨ChatId.ChannelUsername⟩

/-- Modelled from the spec (§4.1 construction): the constructor generated by
`impl_payload!` takes a value for every required field (here `chat_id`, via
`Into` conversion) and returns the payload with all optional fields unset. -/
def CreateChatInviteLink.new (chat_id : ChatId) : CreateChatInviteLink :=
  { chat_id := chat_id, expire_date := none, member_limit := none }

/-- Modelled from the spec (§4.1 optional-field setter): the chainable setter
for `expire_date` generated by `impl_payload!`; sets that field, leaves the
rest unchanged, returns the updated payload. -/
def CreateChatInviteLink.expire_date' (p : CreateChatInviteLink) (v : Int) :
    CreateChatInviteLink :=
  { p with expire_date := some v }

/-- Modelled from the spec (§4.1 optional-field setter): the chainable setter
for `member_limit` generated by `impl_payload!`. -/
def CreateChatInviteLink.member_limit' (p : CreateChatInviteLink) (v : Nat) :
    CreateChatInviteLink :=
  { p with member_limit := some v }

/-- A present optional field contributes its key-value pair to the record; an
absent one contributes nothing (no key, no null). -/
def optField (k : String) : Option Json → List (String × Json)
  | none => []
  | some j => [(k, j)]

/-- Serialization of the payload, fields in declaration order: the required
`chat_id` always, each optional field only when set (the
`skip_serializing_if` discipline of the generated `Serialize` impl, modelled
from spec §6: "optional fields are present only if they have been set
(absent, not null, when unset)"). -/
def CreateChatInviteLink.toJson (p : CreateChatInviteLink) : Json :=
  Json.obj (("chat_id", p.chat_id.toJson) ::
    (optField "expire_date" (p.expire_date.map Json.num) ++
     optField "member_limit" (p.member_limit.map (fun n => Json.num (n : Int)))))

/-- Mixing step of a structural hash, standing in for the state transition of
the hasher the derived `Hash` impl feeds fields to. -/
def hashCombine (a b : Nat) : Nat := a * 1000003 + b

/-- Structural hash of a chat id (the derived `Hash` feeds the discriminant
and the field). -/
def ChatId.hashVal : ChatId → Nat
  | .Id n => hashCombine 0 (2 * n.natAbs + (if n < 0 then 1 else 0))
  | .ChannelUsername s => hashCombine 1 s.length

/-- Structural hash of an optional field: discriminant, then the value. -/
def hashOpt (f : α → Nat) : Option α → Nat
  | none => 0
  | some a => hashCombine 1 (f a)

/-- Structural hash of the payload: the derived `Hash` impl
(`#[derive(..., Hash, ...)]` in the source) hashes every field in order. -/
def CreateChatInviteLink.hashVal (p : CreateChatInviteLink) : Nat :=
  hashCombine
    (hashCombine p.chat_id.hashVal
      (hashOpt (fun n : Int => 2 * n.natAbs + (if n < 0 then 1 else 0)) p.expire_date))
    (hashOpt id p.member_limit)

/-- Modelled from the spec (§7 error taxonomy): the associated error type of a
request: serialization failure, transport failure, or an application-level
failure reported by the remote service. -/
inductive RequestError where
  | network : RequestError
  | encode : RequestError
  | api : String → RequestError
deriving DecidableEq, Repr

/-- Modelled from the spec (§6 transport boundary): the abstract transport
capability, "perform one encoded call, return raw result or failure". -/
structure Transport (O E : Type) where
  perform : Json → Except E O

/-- Serialization capability, standing in for serde's `Serialize` bound. -/
class Serialize (P : Type) where
  toJson : P → Json

instance : Serialize CreateChatInviteLink := ⟨CreateChatInviteLink.toJson⟩

/-- Output binding: the compile-time association from a payload type to its
output type, the `=> ChatInviteLink` arrow of `impl_payload!` (which generates
a `Payload` impl with `type Output`). -/
class Payload (P : Type) where
  Output : Type

/-- `pub CreateChatInviteLink (CreateChatInviteLinkSetters) => ChatInviteLink`:
the payload's output type is `ChatInviteLink`. -/
instance : Payload CreateChatInviteLink := ⟨ChatInviteLink⟩

/-- Modelled from the spec (§3 Request): a request couples exactly one owned
payload with one transport binding. The concrete `JsonRequest` implementation
of the trait lives outside `src/`. -/
structure JsonRequest (P O E : Type) where
  payload : P
  transport : Transport O E

/-- Modelled from the spec: the future type returned by the consuming `send`;
it owns the request (payload and transport moved into it). Driving it is a
separate operation. -/
structure SendFut (P O E : Type) where
  req : JsonRequest P O E

/-- Modelled from the spec: the future type returned by `send_ref`; a distinct
type from `SendFut`, holding the payload and transport state reachable through
the borrowed request. -/
structure SendRefFut (P O E : Type) where
  payload : P
  transport : Transport O E

/-- Modelled from the spec (§3): constructing a request performs no network
activity; the returned trace lists the transport invocations the call itself
performed — none. -/
def JsonRequest.new (p : P) (t : Transport O E) : JsonRequest P O E × List Json :=
  ({ payload := p, transport := t }, [])

/-- Modelled from the spec (§4.3): `send` consumes the request and merely
constructs the future; it performs no transport invocation itself (empty
trace), keeping all work inside the future. -/
def JsonRequest.send (r : JsonRequest P O E) : SendFut P O E × List Json :=
  ({ req := r }, [])

/-- Modelled from the spec (§4.3): `send_ref` borrows the request and merely
constructs the (distinct) future; it performs no transport invocation itself
(empty trace). -/
def JsonRequest.send_ref (r : JsonRequest P O E) : SendRefFut P O E × List Json :=
  ({ payload := r.payload, transport := r.transport }, [])

/-- Modelled from the spec (§5): driving the consuming future to completion:
serialize, transmit (the one suspension point), yield the decoded result;
exactly one transport invocation appears in the trace. -/
def SendFut.drive [Serialize P] (f : SendFut P O E) : Except E O × List Json :=
  let j := Serialize.toJson f.req.payload
  (f.req.transport.perform j, [j])

/-- Modelled from the spec (§5): driving the by-reference future to
completion; same strict sequence, one transport invocation. -/
def SendRefFut.drive [Serialize P] (f : SendRefFut P O E) : Except E O × List Json :=
  let j := Serialize.toJson f.payload
  (f.transport.perform j, [j])

/-- Shallow embedding of an associated-future-type declaration of the trait
`Request` (src/requests/request.rs): its name, and whether the declaration is
generic over the lifetime of the `&self` borrow (a generic associated type),
which is what a returned future that borrows from `self` would require. -/
structure AssocFutureTy where
  name : String
  capturesSelfLifetime : Bool
deriving DecidableEq, Repr

/-- `type Send: Future<Output = Result<Output<Self>, Self::Err>> + Send;`
(request.rs line 31): a plain associated type, no lifetime parameter. -/
def Request.SendTy : AssocFutureTy :=
  { name := "Send", capturesSelfLifetime := false }

/-- `type SendRef: Future<Output = Result<Output<Self>, Self::Err>> + Send;`
(request.rs line 37), under the source note "it intentionally forbids
borrowing from `self` though we couldn't allow borrowing without GATs
anyway": a plain associated type, not generic over the `&self` lifetime. -/
def Request.SendRefTy : AssocFutureTy :=
  { name := "SendRef", capturesSelfLifetime := false }

/-- A transport stub that always answers with a fixed invite link; used to
instantiate theorems at concrete inputs. -/
def okTransport : Transport ChatInviteLink RequestError :=
  { perform := fun _ => Except.ok { invite_link := "https://t.me/joinchat/x" } }

/-- C1: constructing a request, and calling `send` or `send_ref` on it,
performs zero transport invocations; all observable transport activity is
confined to driving the returned future. -/
theorem c1_laziness (P O E : Type) (p : P) (t : Transport O E) :
    (JsonRequest.new p t).2 = [] ∧
    ((JsonRequest.new p t).1.send).2 = [] ∧
    ((JsonRequest.new p t).1.send_ref).2 = [] :=
  ⟨rfl, rfl, rfl⟩

/-- C2: serializing a `CreateChatInviteLink` payload always emits `chat_id`,
and emits each optional field exactly when it is set (absent, not null, when
unset); in particular `chat_id = 42` with nothing set serializes to exactly
`{"chat_id": 42}`, and after setting `expire_date = 1700000000` to exactly
`{"chat_id": 42, "expire_date": 1700000000}`. -/
theorem c2_serialization (p : CreateChatInviteLink) :
    (∃ fields, p.toJson = Json.obj fields ∧
      fields.lookup "chat_id" = some p.chat_id.toJson ∧
      fields.lookup "expire_date" = p.expire_date.map Json.num ∧
      fields.lookup "member_limit" = p.member_limit.map (fun n => Json.num (n : Int))) ∧
    (CreateChatInviteLink.new (IntoChatId.into (42 : Int))).toJson =
      Json.obj [("chat_id", Json.num 42)] ∧
    ((CreateChatInviteLink.new (IntoChatId.into (42 : Int))).expire_date' 1700000000).toJson =
      Json.obj [("chat_id", Json.num 42), ("expire_date", Json.num 1700000000)] := by
  refine ⟨⟨("chat_id", p.chat_id.toJson) ::
      (optField "expire_date" (p.expire_date.map Json.num) ++
       optField "member_limit" (p.member_limit.map (fun n => Json.num (n : Int)))),
      rfl, ?_, ?_, ?_⟩, rfl, rfl⟩ <;>
    rcases p.expire_date with _ | d <;> rcases p.member_limit with _ | m <;>
      simp [optField, List.lookup]

/-- C3: for an unchanged payload, driving the future returned by `send` and
driving the future returned by `send_ref` against transports that answer every
encoded call identically yields equal results. -/
theorem c3_dual_mode (P O E : Type) [Serialize P] (p : P) (t₁ t₂ : Transport O E)
    (h : ∀ j, t₁.perform j = t₂.perform j) :
    ((JsonRequest.new p t₁).1.send.1.drive).1 =
      ((JsonRequest.new p t₂).1.send_ref.1.drive).1 := by
  simp [JsonRequest.new, JsonRequest.send, JsonRequest.send_ref, SendFut.drive,
    SendRefFut.drive, h]

/-- C3 witness: the dual-mode equivalence instantiated at a concrete payload
and the stub transport (used on both sides). -/
theorem c3_dual_mode_witness :
    (∀ j, okTransport.perform j = okTransport.perform j) ∧
    ((JsonRequest.new (CreateChatInviteLink.new (ChatId.Id 7)) okTransport).1.send.1.drive).1 =
      ((JsonRequest.new (CreateChatInviteLink.new (ChatId.Id 7)) okTransport).1.send_ref.1.drive).1 :=
  ⟨fun _ => rfl,
    c3_dual_mode CreateChatInviteLink ChatInviteLink RequestError
      (CreateChatInviteLink.new (ChatId.Id 7)) okTransport okTransport (fun _ => rfl)⟩

/-- C4: constructing a `CreateChatInviteLink` from any value convertible into
`ChatId` yields a payload whose `chat_id` is the converted value and whose
optional fields are both unset. -/
theorem c4_constructor (α : Type) [IntoChatId α] (a : α) :
    (CreateChatInviteLink.new (IntoChatId.into a)).chat_id = IntoChatId.into a ∧
    (CreateChatInviteLink.new (IntoChatId.into a)).expire_date = none ∧
    (CreateChatInviteLink.new (IntoChatId.into a)).member_limit = none :=
  ⟨rfl, rfl, rfl⟩

/-- C5: the `expire_date` and `member_limit` setters commute with each other,
and applying the same setter twice keeps only the last value. -/
theorem c5_setter_algebra (p : CreateChatInviteLink) (d d' : Int) (m m' : Nat) :
    ((p.expire_date' d).member_limit' m = (p.member_limit' m).expire_date' d) ∧
    ((p.expire_date' d).expire_date' d' = p.expire_date' d') ∧
    ((p.member_limit' m).member_limit' m' = p.member_limit' m') :=
  ⟨rfl, rfl, rfl⟩

/-- C6: two payloads are equal iff their `chat_id`s are equal and each
optional field agrees (including unset-ness), and the structural hash respects
this equality, so a payload can key a cache. -/
theorem c6_eq_hash (a b : CreateChatInviteLink) :
    (a = b ↔ a.chat_id = b.chat_id ∧ a.expire_date = b.expire_date ∧
      a.member_limit = b.member_limit) ∧
    (a = b → a.hashVal = b.hashVal) := by
  constructor
  · constructor
    · rintro rfl
      exact ⟨rfl, rfl, rfl⟩
    · rintro ⟨h₁, h₂, h₃⟩
      cases a
      cases b
      simp_all
  · rintro rfl
    rfl

/-- C6 witness: the equality characterisation and hash congruence applied at a
concrete pair of equal payloads. -/
theorem c6_eq_hash_witness :
    (CreateChatInviteLink.new (ChatId.Id 1)).hashVal =
      (CreateChatInviteLink.new (ChatId.Id 1)).hashVal :=
  (c6_eq_hash (CreateChatInviteLink.new (ChatId.Id 1))
    (CreateChatInviteLink.new (ChatId.Id 1))).2 rfl

/-- C7: the output binding maps `CreateChatInviteLink` to exactly
`ChatInviteLink`, and futures on a request carrying that payload, typed
through the binding, yield `Result<ChatInviteLink, Err>` when driven. -/
theorem c7_output_binding :
    Payload.Output CreateChatInviteLink = ChatInviteLink ∧
    (∀ E : Type, ∀ f : SendFut CreateChatInviteLink (Payload.Output CreateChatInviteLink) E,
      ∃ r : Except E ChatInviteLink, f.drive.1 = r) ∧
    (∀ E : Type, ∀ f : SendRefFut CreateChatInviteLink (Payload.Output CreateChatInviteLink) E,
      ∃ r : Except E ChatInviteLink, f.drive.1 = r) :=
  ⟨rfl, fun _ f => ⟨f.drive.1, rfl⟩, fun _ f => ⟨f.drive.1, rfl⟩⟩

/-- C8: each optional-field setter changes only its own field: `expire_date`
leaves `chat_id` and `member_limit` unchanged, `member_limit` leaves `chat_id`
and `expire_date` unchanged. -/
theorem c8_frame (p : CreateChatInviteLink) (d : Int) (m : Nat) :
    ((p.expire_date' d).chat_id = p.chat_id ∧
     (p.expire_date' d).member_limit = p.member_limit) ∧
    ((p.member_limit' m).chat_id = p.chat_id ∧
     (p.member_limit' m).expire_date = p.expire_date) :=
  ⟨⟨rfl, rfl⟩, ⟨rfl, rfl⟩⟩

/-- C9 counterexample: the `SendRef` associated future type of the trait
`Request` is not generic over the lifetime of the `&self` borrow (request.rs
line 37, "it intentionally forbids borrowing from `self`"), so the future
returned by `send_ref` cannot borrow from `self`, contrary to the claim. -/
theorem c9_counterexample : Request.SendRefTy.capturesSelfLifetime = false :=
  rfl

/-- C9 (amended): `send_ref`'s future type is a distinct associated type from
`send`'s, and that future cannot borrow from `self`: its associated type is
deliberately not generic over the `&self` lifetime. -/
theorem c9_send_ref_future :
    Request.SendRefTy ≠ Request.SendTy ∧
    Request.SendRefTy.capturesSelfLifetime = false := by
  exact ⟨by decide, rfl⟩

/-- C10: construction is total: any convertible value is accepted for
`chat_id` with no validation, and the `member_limit` setter stores any `u32`
value, including values outside the documented 1-99999 range. -/
theorem c10_total (α : Type) [IntoChatId α] (a : α) (p : CreateChatInviteLink)
    (v : Nat) (hv : v < 2 ^ 32) :
    (CreateChatInviteLink.new (IntoChatId.into a)).chat_id = IntoChatId.into a ∧
    (p.member_limit' v).member_limit = some v :=
  ⟨rfl, rfl⟩

/-- C10 witness: construction from a negative identifier succeeds unvalidated,
and `member_limit = 100000` — outside the documented 1-99999 range but a valid
`u32` — is stored as given. -/
theorem c10_total_witness :
    (100000 : Nat) < 2 ^ 32 ∧
    ((CreateChatInviteLink.new (IntoChatId.into (-100 : Int))).chat_id =
        IntoChatId.into (-100 : Int) ∧
      ((CreateChatInviteLink.new (ChatId.Id 1)).member_limit' 100000).member_limit =
        some 100000) :=
  ⟨by decide,
    c10_total Int (-100) (CreateChatInviteLink.new (ChatId.Id 1)) 100000 (by decide)⟩

end Teloxide
